import Mathlib

/-!
Verification of the local heuristic audit/classification engine of the
hashbuilds secure-prompts MCP server (source: src/index.ts).

The only component with decision logic is the `auditPrompts` function
(src/index.ts lines 221-298) together with the regex pattern tables
`USER_FACING_PATTERNS` (lines 200-207) and `INTERNAL_PATTERNS`
(lines 210-215), and the empty-batch short circuit of the `audit_prompts`
tool handler (lines 587-603).  Everything below is a direct shallow
embedding of that code:

- JavaScript strings are modelled as Lean `String`s (character-based; the
  source counts UTF-16 code units, which coincides with characters on the
  Basic Multilingual Plane).
- The case-insensitive regex flag `i` is modelled by ASCII-lowercasing both
  the scanned string and the (all-ASCII, already lowercase) pattern
  literals, which agrees with the JavaScript non-unicode canonicalisation
  on all inputs for all-ASCII patterns.
- A JavaScript `RegExp.test` call is an unanchored search; every pattern in
  the tables is an alternation of either plain substrings or chains of
  substrings separated by `.*`.  A dot in a non-dotall JavaScript regex
  matches any character except the four line terminators, so a chain
  `X.*Y` tests for an occurrence of `X` followed by an occurrence of `Y`
  with no line terminator in between.  The search combinators below
  (`listContains`, `chain2`, `chain3`) implement exactly these semantics.
- The regexes used by `auditPrompts` carry no `g` flag, so `test` is
  stateless and the whole classifier is a pure function, as embedded.
-/

namespace SecurePrompts

/-- The four JavaScript line terminators, which a non-dotall regex dot
does not match: LF, CR, LINE SEPARATOR, PARAGRAPH SEPARATOR. -/
def isLineTerm (c : Char) : Bool :=
  c == '\n' || c == '\r' || c == '\u2028' || c == '\u2029'

/-- ASCII-lowercased character list of a string; models matching under the
case-insensitive `i` regex flag against lowercase pattern literals. -/
def lcStr (s : String) : List Char :=
  s.data.map Char.toLower

/-- The needle occurs as a contiguous run somewhere in the haystack
(unanchored substring search, the meaning of `test` for a plain literal). -/
def listContains (needle : List Char) : List Char → Bool
  | [] => needle.isEmpty
  | c :: rest => needle.isPrefixOf (c :: rest) || listContains needle rest

/-- Scanning forward over non-line-terminator characters only, the needle
occurs; models the `.*Y` tail of a pattern after an earlier literal. -/
def seekOnLine (y : List Char) : List Char → Bool
  | [] => y.isEmpty
  | c :: rest => y.isPrefixOf (c :: rest) || (!isLineTerm c && seekOnLine y rest)

/-- Scanning forward over non-line-terminator characters only, `y` occurs
and is followed, again with no intervening line terminator, by `z`;
models a `.*Y.*Z` tail. -/
def seekOnLine2 (y z : List Char) : List Char → Bool
  | [] => y.isEmpty && z.isEmpty
  | c :: rest =>
      (y.isPrefixOf (c :: rest) && seekOnLine z ((c :: rest).drop y.length)) ||
      (!isLineTerm c && seekOnLine2 y z rest)

/-- Unanchored search for the JavaScript regex `X.*Y` (non-dotall):
an occurrence of `x` followed by an occurrence of `y` with no line
terminator between them. -/
def chain2 (x y : List Char) : List Char → Bool
  | [] => x.isEmpty && y.isEmpty
  | c :: rest =>
      (x.isPrefixOf (c :: rest) && seekOnLine y ((c :: rest).drop x.length)) ||
      chain2 x y rest

/-- Unanchored search for the JavaScript regex `X.*Y.*Z` (non-dotall). -/
def chain3 (x y z : List Char) : List Char → Bool
  | [] => x.isEmpty && y.isEmpty && z.isEmpty
  | c :: rest =>
      (x.isPrefixOf (c :: rest) && seekOnLine2 y z ((c :: rest).drop x.length)) ||
      chain3 x y z rest

/-- Case-insensitive substring test (JavaScript `/lit/i.test(hay)`). -/
def containsCI (needle hay : String) : Bool :=
  listContains needle.data (lcStr hay)

/-- Case-insensitive test of `X.*Y` (JavaScript `/X.*Y/i.test(hay)`). -/
def chain2CI (x y hay : String) : Bool :=
  chain2 x.data y.data (lcStr hay)

/-- Case-insensitive test of `X.*Y.*Z`. -/
def chain3CI (x y z hay : String) : Bool :=
  chain3 x.data y.data z.data (lcStr hay)

/-- Case-insensitive end-anchored test (JavaScript `/lit$/i.test(hay)`). -/
def endsWithCI (needle hay : String) : Bool :=
  needle.data.isSuffixOf (lcStr hay)

/-- Source line 240: the file-path regex `public\/|PROMPT_.*\.txt` with
flag `i`. -/
def isPublicFile (filePath : String) : Bool :=
  containsCI "public/" filePath || chain2CI "prompt_" ".txt" filePath

/-- Source line 241: the file-path regex `api\/|\.server\.|route\.ts` with
flag `i`. -/
def isApiFile (filePath : String) : Bool :=
  containsCI "api/" filePath || containsCI ".server." filePath ||
    containsCI "route.ts" filePath

/-- Source line 242: the file-path regex `components?\/|\.tsx$` with flag
`i`; `components?\/` matches either `component/` or `components/`. -/
def isComponentFile (filePath : String) : Bool :=
  containsCI "component/" filePath || containsCI "components/" filePath ||
    endsWithCI ".tsx" filePath

/-- Source lines 200-207, the table `USER_FACING_PATTERNS`, one entry per
regex, in order:
first `copy.*button|copyable|clipboard`,
then `onClick.*copy|handleCopy`,
then `data-prompt|promptText.*prop`,
then `user.*can.*copy|copy.*to.*clipboard`,
then the pre-tag, code-tag or CodeBlock marker alternation,
then `PROMPT_.*\.txt|public\/.*prompt`, all with flag `i`. -/
def USER_FACING_PATTERNS : List (String → Bool) :=
  [ fun s => chain2CI "copy" "button" s || containsCI "copyable" s ||
      containsCI "clipboard" s,
    fun s => chain2CI "onclick" "copy" s || containsCI "handlecopy" s,
    fun s => containsCI "data-prompt" s || chain2CI "prompttext" "prop" s,
    fun s => chain3CI "user" "can" "copy" s || chain3CI "copy" "to" "clipboard" s,
    fun s => containsCI "<pre>" s || containsCI "<code>" s ||
      containsCI "codeblock" s,
    fun s => chain2CI "prompt_" ".txt" s || chain2CI "public/" "prompt" s ]

/-- Source lines 210-215, the table `INTERNAL_PATTERNS`, one entry per
regex, in order: `api\/|server|backend`, then `process\.env|getServerSide`,
then `internal|private|system`, then `\.server\.|route\.ts|api\/`,
all with flag `i`. -/
def INTERNAL_PATTERNS : List (String → Bool) :=
  [ fun s => containsCI "api/" s || containsCI "server" s ||
      containsCI "backend" s,
    fun s => containsCI "process.env" s || containsCI "getserverside" s,
    fun s => containsCI "internal" s || containsCI "private" s ||
      containsCI "system" s,
    fun s => containsCI ".server." s || containsCI "route.ts" s ||
      containsCI "api/" s ]

/-- Source line 245: `USER_FACING_PATTERNS.some(p => p.test(surrounding) || p.test(filePath))`. -/
def hasUserFacingIndicators (surrounding filePath : String) : Bool :=
  USER_FACING_PATTERNS.any fun p => p surrounding || p filePath

/-- Source line 246: `INTERNAL_PATTERNS.some(p => p.test(surrounding) || p.test(filePath))`. -/
def hasInternalIndicators (surrounding filePath : String) : Bool :=
  INTERNAL_PATTERNS.any fun p => p surrounding || p filePath

/-- The `context` union type of the source (`PromptCandidate.context`). -/
inductive Context where
  | user_facing
  | internal
  | unknown
  deriving DecidableEq, Repr

/-- The `suggestedAction` union type of the source. -/
inductive Action where
  | register_badge
  | audit_only
  | review
  deriving DecidableEq, Repr

/-- One element of the `prompts` input array of `auditPrompts`
(source lines 221-228). -/
structure PromptInput where
  filePath : String
  lineNumber : Nat
  promptText : String
  surroundingCode : Option String
  deriving DecidableEq, Repr

/-- The `PromptCandidate` interface (source lines 162-170). -/
structure PromptCandidate where
  filePath : String
  lineNumber : Nat
  promptText : String
  context : Context
  confidence : Nat
  suggestedAction : Action
  preview : String
  deriving DecidableEq, Repr

/-- The `AuditResult` interface (source lines 172-179). -/
structure AuditResult where
  totalFound : Nat
  userFacing : Nat
  internal : Nat
  needsReview : Nat
  prompts : List PromptCandidate
  summary : String
  deriving DecidableEq, Repr

/-- Source lines 236-259: the context/confidence decision chain, as a
function of the five boolean signals, in the source's order of evaluation:
initialised to unknown/50, then the public-or-user-facing branch, then the
api-or-internal branch, then the component branch. -/
def contextConfidence (pub api comp uf intl : Bool) : Context × Nat :=
  if pub || uf then (Context.user_facing, if pub then 95 else 75)
  else if api || intl then (Context.internal, if api then 90 else 70)
  else if comp then ((if uf then Context.user_facing else Context.unknown), 60)
  else (Context.unknown, 50)

/-- Source lines 262-267: the suggested-action rule, a function of the
already-determined context and confidence. -/
def suggestedActionOf (context : Context) (confidence : Nat) : Action :=
  if context = Context.user_facing ∧ 70 ≤ confidence then Action.register_badge
  else if context = Context.internal ∧ 70 ≤ confidence then Action.audit_only
  else Action.review

/-- Source line 270: `prompt.promptText.substring(0, 100) +
(prompt.promptText.length > 100 ? '...' : '')`. -/
def mkPreview (t : String) : String :=
  String.mk (t.data.take 100) ++ (if 100 < t.length then "..." else "")

/-- The body of the `for` loop of `auditPrompts` (source lines 231-281):
classification of a single candidate.  `surroundingCode || ''` becomes
`Option.getD`. -/
def classifyOne (prompt : PromptInput) : PromptCandidate :=
  let surrounding := prompt.surroundingCode.getD ""
  let filePath := prompt.filePath
  let pub := isPublicFile filePath
  let api := isApiFile filePath
  let comp := isComponentFile filePath
  let uf := hasUserFacingIndicators surrounding filePath
  let intl := hasInternalIndicators surrounding filePath
  let cc := contextConfidence pub api comp uf intl
  { filePath := prompt.filePath
    lineNumber := prompt.lineNumber
    promptText := prompt.promptText
    context := cc.1
    confidence := cc.2
    suggestedAction := suggestedActionOf cc.1 cc.2
    preview := mkPreview prompt.promptText }

/-- Source lines 221-298: `auditPrompts`.  The `for` loop pushing one
classified candidate per input, in order, is the map; the counts and the
summary string are source lines 284-288. -/
def auditPrompts (prompts : List PromptInput) : AuditResult :=
  let candidates := prompts.map classifyOne
  let userFacing := (candidates.filter fun c => c.context = Context.user_facing).length
  let internal := (candidates.filter fun c => c.context = Context.internal).length
  let needsReview :=
    (candidates.filter fun c => c.context = Context.unknown ∨ c.confidence < 70).length
  { totalFound := candidates.length
    userFacing := userFacing
    internal := internal
    needsReview := needsReview
    prompts := candidates
    summary := "Found " ++ toString candidates.length ++ " prompts: " ++
      toString userFacing ++ " user-facing (recommend badges), " ++
      toString internal ++ " internal (audit only), " ++
      toString needsReview ++ " need manual review." }

/-- Source lines 587-605: the `audit_prompts` tool handler's treatment of
the batch — an empty batch short-circuits to the canonical empty result
without calling `auditPrompts`; otherwise `auditPrompts` runs. -/
def auditPromptsTool (prompts : List PromptInput) : AuditResult :=
  if prompts.isEmpty then
    { totalFound := 0
      userFacing := 0
      internal := 0
      needsReview := 0
      prompts := []
      summary := "No prompts provided for analysis." }
  else
    auditPrompts prompts

/-- Spec concrete scenario 5's candidate: a component file whose
surrounding code carries a code-tag marker. -/
def bannerInput : PromptInput :=
  { filePath := "src/components/Banner.tsx"
    lineNumber := 12
    promptText := "You are a helpful assistant for the banner."
    surroundingCode := some "<code>" }

/-- A candidate that is simultaneously a public file, an API file and full
of internal indicators; exercises the precedence of the public tier. -/
def publicApiInput : PromptInput :=
  { filePath := "app/api/public/PROMPT_admin.txt"
    lineNumber := 3
    promptText := "You are an internal admin assistant."
    surroundingCode := some "process.env.SECRET" }

/-- Spec concrete scenario 3's candidate: no path or indicator rule fires. -/
def configInput : PromptInput :=
  { filePath := "src/lib/config.ts"
    lineNumber := 3
    promptText := "You are an assistant."
    surroundingCode := none }

/-- A candidate whose prompt text is exactly the three-character ellipsis. -/
def dotsInput : PromptInput :=
  { filePath := "src/lib/config.ts"
    lineNumber := 1
    promptText := "..."
    surroundingCode := none }

/-- A 101-character prompt text, long enough to be truncated. -/
def longText : String :=
  String.mk (List.replicate 101 'a')



/-! Helper lemmas shared by the claim theorems. -/

/-- Definitional bridge: the context/confidence pair of a classified
candidate is `contextConfidence` of the five boolean signals. -/
theorem classifyOne_contextConfidence (p : PromptInput) :
    ((classifyOne p).context, (classifyOne p).confidence) =
      contextConfidence (isPublicFile p.filePath) (isApiFile p.filePath)
        (isComponentFile p.filePath)
        (hasUserFacingIndicators (p.surroundingCode.getD "") p.filePath)
        (hasInternalIndicators (p.surroundingCode.getD "") p.filePath) := rfl

/-- Definitional bridge: the suggested action is `suggestedActionOf`
applied to the candidate's own context and confidence. -/
theorem classifyOne_action (p : PromptInput) :
    (classifyOne p).suggestedAction =
      suggestedActionOf (classifyOne p).context (classifyOne p).confidence := rfl

/-- Definitional bridge: the preview is `mkPreview` of the prompt text. -/
theorem classifyOne_preview (p : PromptInput) :
    (classifyOne p).preview = mkPreview p.promptText := rfl

/-- Exhaustive case analysis of the decision chain over the five boolean
signals: each context goes with exactly its two possible confidences. -/
theorem contextConfidence_char (pub api comp uf intl : Bool) :
    ((contextConfidence pub api comp uf intl).1 = Context.user_facing ∧
      ((contextConfidence pub api comp uf intl).2 = 95 ∨
        (contextConfidence pub api comp uf intl).2 = 75)) ∨
    ((contextConfidence pub api comp uf intl).1 = Context.internal ∧
      ((contextConfidence pub api comp uf intl).2 = 90 ∨
        (contextConfidence pub api comp uf intl).2 = 70)) ∨
    ((contextConfidence pub api comp uf intl).1 = Context.unknown ∧
      ((contextConfidence pub api comp uf intl).2 = 60 ∨
        (contextConfidence pub api comp uf intl).2 = 50)) := by
  cases pub <;> cases api <;> cases comp <;> cases uf <;> cases intl <;> decide

/-- The decision chain with the public-file signal set always answers
user-facing with confidence 95. -/
theorem contextConfidence_public (api comp uf intl : Bool) :
    contextConfidence true api comp uf intl = (Context.user_facing, 95) := by
  cases api <;> cases comp <;> cases uf <;> cases intl <;> decide

/-- The decision chain with the public-file signal clear and the
user-facing-indicator signal set always answers user-facing with
confidence 75, whatever the other signals. -/
theorem contextConfidence_indicators (api comp intl : Bool) :
    contextConfidence false api comp true intl = (Context.user_facing, 75) := by
  cases api <;> cases comp <;> cases intl <;> decide

/-- Per-candidate case analysis lifted to `classifyOne`. -/
theorem classifyOne_char (p : PromptInput) :
    ((classifyOne p).context = Context.user_facing ∧
      ((classifyOne p).confidence = 95 ∨ (classifyOne p).confidence = 75)) ∨
    ((classifyOne p).context = Context.internal ∧
      ((classifyOne p).confidence = 90 ∨ (classifyOne p).confidence = 70)) ∨
    ((classifyOne p).context = Context.unknown ∧
      ((classifyOne p).confidence = 60 ∨ (classifyOne p).confidence = 50)) :=
  contextConfidence_char (isPublicFile p.filePath) (isApiFile p.filePath)
    (isComponentFile p.filePath)
    (hasUserFacingIndicators (p.surroundingCode.getD "") p.filePath)
    (hasInternalIndicators (p.surroundingCode.getD "") p.filePath)

/-- Full characterisation of the suggested-action rule as a function of
context and confidence. -/
theorem suggestedActionOf_spec (c : Context) (n : Nat) :
    (suggestedActionOf c n = Action.register_badge ↔
      (c = Context.user_facing ∧ 70 ≤ n)) ∧
    (suggestedActionOf c n = Action.audit_only ↔
      (c = Context.internal ∧ 70 ≤ n)) ∧
    (¬(c = Context.user_facing ∧ 70 ≤ n) → ¬(c = Context.internal ∧ 70 ≤ n) →
      suggestedActionOf c n = Action.review) := by
  unfold suggestedActionOf
  split_ifs with h1 h2 <;> simp_all

/-- Two filters by pointwise-incompatible predicates together keep at most
every element once. -/
theorem length_filter_add_length_filter_le {α : Type} (p q : α → Bool)
    (l : List α) (h : ∀ a ∈ l, ¬(p a = true ∧ q a = true)) :
    (l.filter p).length + (l.filter q).length ≤ l.length := by
  induction l with
  | nil => simp
  | cons a l ih =>
    have ha := h a (List.mem_cons_self a l)
    have ih' := ih fun b hb => h b (List.mem_cons_of_mem a hb)
    cases hp : p a with
    | false =>
      cases hq : q a with
      | false => simp [List.filter_cons, hp, hq]; omega
      | true => simp [List.filter_cons, hp, hq]; omega
    | true =>
      cases hq : q a with
      | false => simp [List.filter_cons, hp, hq]; omega
      | true => exact absurd (And.intro hp hq) ha

/-- Filtering by a pointwise-weaker predicate keeps at least as much. -/
theorem length_filter_le_of_imp {α : Type} (p q : α → Bool) (l : List α)
    (h : ∀ a ∈ l, p a = true → q a = true) :
    (l.filter p).length ≤ (l.filter q).length := by
  induction l with
  | nil => simp
  | cons a l ih =>
    have ha := h a (List.mem_cons_self a l)
    have ih' := ih fun b hb => h b (List.mem_cons_of_mem a hb)
    cases hp : p a with
    | false =>
      cases hq : q a with
      | false => simp [List.filter_cons, hp, hq]; omega
      | true => simp [List.filter_cons, hp, hq]; omega
    | true =>
      have hq := ha hp
      simp [List.filter_cons, hp, hq]
      omega

/-- Filters by predicates that agree on every element of the list are
equal. -/
theorem filter_eq_of_agree {α : Type} (p q : α → Bool) (l : List α)
    (h : ∀ a ∈ l, p a = q a) : l.filter p = l.filter q := by
  induction l with
  | nil => rfl
  | cons a l ih =>
    have ha := h a (List.mem_cons_self a l)
    have ih' := ih fun b hb => h b (List.mem_cons_of_mem a hb)
    cases hp : p a <;> rw [List.filter_cons, List.filter_cons, ← ha, hp] <;>
      simp [ih']

/-- The three context buckets partition any candidate list. -/
theorem context_filter_partition (l : List PromptCandidate) :
    (l.filter fun c => c.context = Context.user_facing).length +
    (l.filter fun c => c.context = Context.internal).length +
    (l.filter fun c => c.context = Context.unknown).length = l.length := by
  induction l with
  | nil => rfl
  | cons a l ih =>
    cases h : a.context <;> simp [List.filter_cons, h] <;> omega

/-- Unfolded data of a preview: the first 100 characters, with the
ellipsis appended exactly when the text is longer than 100. -/
theorem mkPreview_data (t : String) :
    (mkPreview t).data =
      t.data.take 100 ++ (if 100 < t.length then "...".data else []) := by
  unfold mkPreview
  by_cases h : 100 < t.length <;> simp [h]


/-! The claim theorems. -/

/-- C1, counterexample to the claim as stated: the spec-scenario-5
candidate is a component file, not a public or API file, and its
surrounding code carries a user-facing indicator, yet classification gives
confidence 75 and suggested action register_badge — not confidence 60 and
review — and the item does not satisfy the needs-review predicate. -/
theorem claim_C1_counterexample :
    isComponentFile bannerInput.filePath = true ∧
    isPublicFile bannerInput.filePath = false ∧
    isApiFile bannerInput.filePath = false ∧
    hasUserFacingIndicators (bannerInput.surroundingCode.getD "")
      bannerInput.filePath = true ∧
    ¬((classifyOne bannerInput).confidence = 60) ∧
    ¬((classifyOne bannerInput).suggestedAction = Action.review) ∧
    ¬((classifyOne bannerInput).context = Context.unknown ∨
      (classifyOne bannerInput).confidence < 70) := by decide

/-- C1 (amended): for a candidate whose filePath matches the
component-file shape and is not a public or API file, and whose
surroundingCode contains a user-facing indicator, the user-facing
indicator tier fires before the component tier: classification yields
context user_facing with confidence 75, hence suggestedAction
register_badge, and the item does not count in needsReview. -/
theorem claim_C1 (p : PromptInput)
    (hcomp : isComponentFile p.filePath = true)
    (hpub : isPublicFile p.filePath = false)
    (hapi : isApiFile p.filePath = false)
    (huf : hasUserFacingIndicators (p.surroundingCode.getD "")
      p.filePath = true) :
    (classifyOne p).context = Context.user_facing ∧
    (classifyOne p).confidence = 75 ∧
    (classifyOne p).suggestedAction = Action.register_badge ∧
    ¬((classifyOne p).context = Context.unknown ∨
      (classifyOne p).confidence < 70) := by
  have base := classifyOne_contextConfidence p
  rw [hpub, huf, contextConfidence_indicators] at base
  have hctx : (classifyOne p).context = Context.user_facing :=
    congrArg Prod.fst base
  have hconf : (classifyOne p).confidence = 75 := congrArg Prod.snd base
  refine ⟨hctx, hconf, ?_, ?_⟩
  · rw [classifyOne_action, hctx, hconf]
    decide
  · rw [hctx, hconf]
    decide

/-- C1 witness: the amended statement at the concrete scenario-5
candidate. -/
theorem claim_C1_witness :
    (classifyOne bannerInput).context = Context.user_facing ∧
    (classifyOne bannerInput).confidence = 75 ∧
    (classifyOne bannerInput).suggestedAction = Action.register_badge ∧
    ¬((classifyOne bannerInput).context = Context.unknown ∨
      (classifyOne bannerInput).confidence < 70) :=
  claim_C1 bannerInput (by decide) (by decide) (by decide) (by decide)

/-- C2, counterexample to the claim as stated: for the candidate whose
promptText is the three-character string of dots, the preview ends in the
three dots although the promptText's length does not exceed 100, so the
claimed biconditional fails. -/
theorem claim_C2_counterexample :
    ¬(("...".data <:+ (classifyOne dotsInput).preview.data) ↔
      100 < dotsInput.promptText.length) := by decide

/-- C2 (amended): for every candidate the preview length is at most 103,
the preview ends with the three-character ellipsis whenever promptText is
longer than 100 characters, and whenever promptText is at most 100
characters the preview is promptText unchanged (so it then ends in the
ellipsis exactly when promptText itself does). -/
theorem claim_C2 (p : PromptInput) :
    (classifyOne p).preview.length ≤ 103 ∧
    (100 < p.promptText.length →
      "...".data <:+ (classifyOne p).preview.data) ∧
    (p.promptText.length ≤ 100 → (classifyOne p).preview = p.promptText) := by
  rw [classifyOne_preview]
  refine ⟨?_, ?_, ?_⟩
  · show (mkPreview p.promptText).data.length ≤ 103
    rw [mkPreview_data]
    by_cases h : 100 < p.promptText.length <;>
      simp [h, List.length_take] <;> omega
  · intro h
    show "...".data <:+ (mkPreview p.promptText).data
    rw [mkPreview_data, if_pos h]
    exact List.suffix_append _ _
  · intro h
    have h1 : p.promptText.data.take 100 = p.promptText.data :=
      List.take_of_length_le h
    unfold mkPreview
    rw [if_neg (by omega), h1]
    calc String.mk p.promptText.data ++ ""
        = String.mk (p.promptText.data ++ []) := rfl
      _ = String.mk p.promptText.data := by rw [List.append_nil]
      _ = p.promptText := rfl

/-- C2 witness: the amended statement evaluated at a short prompt (preview
unchanged) and at a 101-character prompt (preview ends in the ellipsis). -/
theorem claim_C2_witness :
    (classifyOne configInput).preview = configInput.promptText ∧
    ("...".data <:+
      (classifyOne ⟨"src/lib/a.ts", 1, longText, none⟩).preview.data) :=
  ⟨(claim_C2 configInput).2.2 (by decide),
   (claim_C2 ⟨"src/lib/a.ts", 1, longText, none⟩).2.1 (by decide)⟩

/-- C3: the tool handler maps the empty batch to the canonical empty
result — all four counts zero, no items, and the exact fixed summary —
which, being computed before `auditPrompts` runs, involves no classifier
call. -/
theorem claim_C3 :
    auditPromptsTool [] =
      { totalFound := 0, userFacing := 0, internal := 0, needsReview := 0,
        prompts := [], summary := "No prompts provided for analysis." } := rfl

/-- C4: for every classified candidate the suggested action is exactly the
threshold rule on the candidate's context and confidence: register_badge
iff user-facing with confidence at least 70, audit_only iff internal with
confidence at least 70, and review in every other combination. -/
theorem claim_C4 (p : PromptInput) :
    ((classifyOne p).suggestedAction = Action.register_badge ↔
      ((classifyOne p).context = Context.user_facing ∧
        70 ≤ (classifyOne p).confidence)) ∧
    ((classifyOne p).suggestedAction = Action.audit_only ↔
      ((classifyOne p).context = Context.internal ∧
        70 ≤ (classifyOne p).confidence)) ∧
    (¬((classifyOne p).context = Context.user_facing ∧
        70 ≤ (classifyOne p).confidence) →
      ¬((classifyOne p).context = Context.internal ∧
        70 ≤ (classifyOne p).confidence) →
      (classifyOne p).suggestedAction = Action.review) :=
  suggestedActionOf_spec (classifyOne p).context (classifyOne p).confidence

/-- C4 witness: at the plain library-file candidate, neither
threshold condition holds and the action is review. -/
theorem claim_C4_witness :
    (classifyOne configInput).suggestedAction = Action.review :=
  (claim_C4 configInput).2.2 (by decide) (by decide)

/-- C5: a candidate whose filePath matches the public-file shape is always
classified user_facing with confidence 95 (and hence register_badge),
whatever else the path or surrounding code matches. -/
theorem claim_C5 (p : PromptInput)
    (h : isPublicFile p.filePath = true) :
    (classifyOne p).context = Context.user_facing ∧
    (classifyOne p).confidence = 95 ∧
    (classifyOne p).suggestedAction = Action.register_badge := by
  have base := classifyOne_contextConfidence p
  rw [h, contextConfidence_public] at base
  have hctx : (classifyOne p).context = Context.user_facing :=
    congrArg Prod.fst base
  have hconf : (classifyOne p).confidence = 95 := congrArg Prod.snd base
  refine ⟨hctx, hconf, ?_⟩
  rw [classifyOne_action, hctx, hconf]
  decide

/-- C5 witness: a candidate that simultaneously matches the API-file shape
and the internal indicators still classifies as user_facing with
confidence 95. -/
theorem claim_C5_witness :
    isApiFile publicApiInput.filePath = true ∧
    hasInternalIndicators (publicApiInput.surroundingCode.getD "")
      publicApiInput.filePath = true ∧
    ((classifyOne publicApiInput).context = Context.user_facing ∧
      (classifyOne publicApiInput).confidence = 95 ∧
      (classifyOne publicApiInput).suggestedAction = Action.register_badge) :=
  ⟨by decide, by decide, claim_C5 publicApiInput (by decide)⟩

/-- C6: the three aggregate counts are the advertised counts over the
result's items, the user-facing and internal counts together never exceed
the total, and the needs-review count is at least the number of
unknown-context items. -/
theorem claim_C6 (ps : List PromptInput) :
    (auditPrompts ps).userFacing =
      ((auditPrompts ps).prompts.filter fun c =>
        c.context = Context.user_facing).length ∧
    (auditPrompts ps).internal =
      ((auditPrompts ps).prompts.filter fun c =>
        c.context = Context.internal).length ∧
    (auditPrompts ps).needsReview =
      ((auditPrompts ps).prompts.filter fun c =>
        c.context = Context.unknown ∨ c.confidence < 70).length ∧
    (auditPrompts ps).userFacing + (auditPrompts ps).internal ≤
      (auditPrompts ps).totalFound ∧
    ((auditPrompts ps).prompts.filter fun c =>
      c.context = Context.unknown).length ≤ (auditPrompts ps).needsReview := by
  refine ⟨rfl, rfl, rfl, ?_, ?_⟩
  · show ((ps.map classifyOne).filter fun c =>
        c.context = Context.user_facing).length +
      ((ps.map classifyOne).filter fun c =>
        c.context = Context.internal).length ≤ (ps.map classifyOne).length
    apply length_filter_add_length_filter_le
    intro a _ hcontra
    obtain ⟨h1, h2⟩ := hcontra
    simp only [decide_eq_true_eq] at h1 h2
    rw [h1] at h2
    exact absurd h2 (by decide)
  · show ((ps.map classifyOne).filter fun c =>
        c.context = Context.unknown).length ≤
      ((ps.map classifyOne).filter fun c =>
        c.context = Context.unknown ∨ c.confidence < 70).length
    apply length_filter_le_of_imp
    intro a _ h1
    simp only [decide_eq_true_eq] at h1 ⊢
    exact Or.inl h1

/-- C7: for a non-empty batch the summary is exactly the template with the
four computed counts substituted in. -/
theorem claim_C7 (ps : List PromptInput) (h : ps ≠ []) :
    (auditPromptsTool ps).summary =
      "Found " ++ toString (auditPromptsTool ps).totalFound ++ " prompts: " ++
      toString (auditPromptsTool ps).userFacing ++
      " user-facing (recommend badges), " ++
      toString (auditPromptsTool ps).internal ++ " internal (audit only), " ++
      toString (auditPromptsTool ps).needsReview ++
      " need manual review." := by
  cases ps with
  | nil => exact absurd rfl h
  | cons a l => rfl

/-- C7 witness: the template at a concrete one-element batch. -/
theorem claim_C7_witness :
    (auditPromptsTool [configInput]).summary =
      "Found " ++ toString (auditPromptsTool [configInput]).totalFound ++
      " prompts: " ++
      toString (auditPromptsTool [configInput]).userFacing ++
      " user-facing (recommend badges), " ++
      toString (auditPromptsTool [configInput]).internal ++
      " internal (audit only), " ++
      toString (auditPromptsTool [configInput]).needsReview ++
      " need manual review." :=
  claim_C7 [configInput] (List.cons_ne_nil configInput [])

/-- C8: the result items are the input candidates classified in place —
same length, same order, and the item at every index is the classification
of the input candidate at that index alone. -/
theorem claim_C8 (ps : List PromptInput) :
    (auditPrompts ps).totalFound = ps.length ∧
    (auditPrompts ps).prompts = ps.map classifyOne ∧
    ∀ i : Nat, (auditPrompts ps).prompts[i]? = Option.map classifyOne ps[i]? := by
  refine ⟨?_, rfl, fun i => ?_⟩
  · show (ps.map classifyOne).length = ps.length
    exact List.length_map ps classifyOne
  · show (ps.map classifyOne)[i]? = _
    exact List.getElem?_map classifyOne ps i

/-- C9: classification has no hidden state — two occurrences of the same
candidate in one batch, at arbitrary positions with arbitrary neighbours,
produce the identical classification, which is also what a separate
single-candidate call produces. -/
theorem claim_C9 (p : PromptInput) (ps1 ps2 ps3 : List PromptInput) :
    (auditPrompts (ps1 ++ [p] ++ ps2 ++ [p] ++ ps3)).prompts =
      ps1.map classifyOne ++ [classifyOne p] ++ ps2.map classifyOne ++
        [classifyOne p] ++ ps3.map classifyOne ∧
    (auditPrompts [p]).prompts = [classifyOne p] := by
  refine ⟨?_, rfl⟩
  show (ps1 ++ [p] ++ ps2 ++ [p] ++ ps3).map classifyOne = _
  simp [List.map_append]

/-- C10 (implicit): the produced confidence is one of the six constants,
each context admits exactly its two constants, confidence below 70
coincides with unknown context, the needs-review count equals the count of
unknown-context items, and the three buckets exactly partition the
batch. -/
theorem claim_C10 (p : PromptInput) (ps : List PromptInput) :
    ((classifyOne p).confidence = 50 ∨ (classifyOne p).confidence = 60 ∨
      (classifyOne p).confidence = 70 ∨ (classifyOne p).confidence = 75 ∨
      (classifyOne p).confidence = 90 ∨ (classifyOne p).confidence = 95) ∧
    ((classifyOne p).context = Context.user_facing →
      ((classifyOne p).confidence = 75 ∨ (classifyOne p).confidence = 95)) ∧
    ((classifyOne p).context = Context.internal →
      ((classifyOne p).confidence = 70 ∨ (classifyOne p).confidence = 90)) ∧
    ((classifyOne p).context = Context.unknown →
      ((classifyOne p).confidence = 50 ∨ (classifyOne p).confidence = 60)) ∧
    ((classifyOne p).confidence < 70 ↔
      (classifyOne p).context = Context.unknown) ∧
    (auditPrompts ps).needsReview =
      ((auditPrompts ps).prompts.filter fun c =>
        c.context = Context.unknown).length ∧
    (auditPrompts ps).userFacing + (auditPrompts ps).internal +
      (auditPrompts ps).needsReview = (auditPrompts ps).totalFound := by
  have key : (auditPrompts ps).needsReview =
      ((ps.map classifyOne).filter fun c =>
        c.context = Context.unknown).length := by
    show ((ps.map classifyOne).filter fun c =>
      c.context = Context.unknown ∨ c.confidence < 70).length = _
    congr 1
    apply filter_eq_of_agree
    intro c hc
    obtain ⟨q, hq, rfl⟩ := List.mem_map.mp hc
    rcases classifyOne_char q with ⟨h1, h2⟩ | ⟨h1, h2⟩ | ⟨h1, h2⟩ <;>
      rcases h2 with h2 | h2 <;> simp [h1, h2]
  refine ⟨?_, ?_, ?_, ?_, ?_, key, ?_⟩
  · rcases classifyOne_char p with ⟨h1, h2⟩ | ⟨h1, h2⟩ | ⟨h1, h2⟩ <;>
      rcases h2 with h2 | h2 <;> omega
  · intro hctx
    rcases classifyOne_char p with ⟨h1, h2⟩ | ⟨h1, h2⟩ | ⟨h1, h2⟩
    · omega
    · rw [h1] at hctx
      exact absurd hctx (by decide)
    · rw [h1] at hctx
      exact absurd hctx (by decide)
  · intro hctx
    rcases classifyOne_char p with ⟨h1, h2⟩ | ⟨h1, h2⟩ | ⟨h1, h2⟩
    · rw [h1] at hctx
      exact absurd hctx (by decide)
    · omega
    · rw [h1] at hctx
      exact absurd hctx (by decide)
  · intro hctx
    rcases classifyOne_char p with ⟨h1, h2⟩ | ⟨h1, h2⟩ | ⟨h1, h2⟩
    · rw [h1] at hctx
      exact absurd hctx (by decide)
    · rw [h1] at hctx
      exact absurd hctx (by decide)
    · omega
  · rcases classifyOne_char p with ⟨h1, h2⟩ | ⟨h1, h2⟩ | ⟨h1, h2⟩ <;>
      rcases h2 with h2 | h2 <;> rw [h1, h2] <;> decide
  · rw [key]
    show ((ps.map classifyOne).filter fun c =>
        c.context = Context.user_facing).length +
      ((ps.map classifyOne).filter fun c =>
        c.context = Context.internal).length +
      ((ps.map classifyOne).filter fun c =>
        c.context = Context.unknown).length = (ps.map classifyOne).length
    exact context_filter_partition (ps.map classifyOne)

/-- C10 witness: a concrete unknown-context candidate realises the
unknown branch and the below-70 biconditional. -/
theorem claim_C10_witness :
    (classifyOne configInput).context = Context.unknown ∧
    ((classifyOne configInput).confidence = 50 ∨
      (classifyOne configInput).confidence = 60) ∧
    ((classifyOne configInput).confidence < 70 ↔
      (classifyOne configInput).context = Context.unknown) :=
  ⟨by decide, (claim_C10 configInput []).2.2.2.1 (by decide),
    (claim_C10 configInput []).2.2.2.2.1⟩

end SecurePrompts
